import Mathlib

/-!
Shallow embedding of the storage-helpers library (POSIX helper, S3 helper,
communication handler) and verification of its specification claims.

Machine integers are embedded as Nat / Int with explicit two's-complement
wrapping where the source narrows or wraps.  Fallible operations return
an Except value carrying the platform error code (errno) exactly as the
source propagates it through makeFuturePosixException / std::system_error
with the system category, whose values on Linux coincide with errno
numbers.
-/

/-! ### Platform error codes (Linux errno values) -/

/-- errno EINTR. -/
def EINTR : Nat := 4
/-- errno EIO (the name EIO itself is taken by core Lean). -/
def EIO_CODE : Nat := 5
/-- errno EAGAIN (== EWOULDBLOCK on Linux). -/
def EAGAIN : Nat := 11
/-- errno EACCES. -/
def EACCES : Nat := 13
/-- errno EBUSY. -/
def EBUSY : Nat := 16
/-- errno EINVAL. -/
def EINVAL : Nat := 22
/-- errno EMFILE. -/
def EMFILE : Nat := 24
/-- errno ETXTBSY. -/
def ETXTBSY : Nat := 26
/-- errno ESPIPE. -/
def ESPIPE : Nat := 29
/-- errno EMLINK. -/
def EMLINK : Nat := 31
/-- errno EPIPE. -/
def EPIPE : Nat := 32
/-- errno EDOM (numerical argument out of domain). -/
def EDOM : Nat := 33
/-- errno ERANGE. -/
def ERANGE : Nat := 34
/-- errno EDEADLK. -/
def EDEADLK : Nat := 35
/-- errno EWOULDBLOCK (same value as EAGAIN on Linux). -/
def EWOULDBLOCK : Nat := 11
/-- errno ENOLINK. -/
def ENOLINK : Nat := 67
/-- errno EADDRINUSE. -/
def EADDRINUSE : Nat := 98
/-- errno EADDRNOTAVAIL. -/
def EADDRNOTAVAIL : Nat := 99
/-- errno ENETDOWN. -/
def ENETDOWN : Nat := 100
/-- errno ENETUNREACH. -/
def ENETUNREACH : Nat := 101
/-- errno ECONNABORTED. -/
def ECONNABORTED : Nat := 103
/-- errno ECONNRESET. -/
def ECONNRESET : Nat := 104
/-- errno ENOTCONN. -/
def ENOTCONN : Nat := 107
/-- errno EHOSTUNREACH. -/
def EHOSTUNREACH : Nat := 113
/-- errno ECANCELED. -/
def ECANCELED : Nat := 125
/-- errno ESTALE. -/
def ESTALE : Nat := 116
/-- errno ENONET (Linux only). -/
def ENONET : Nat := 64
/-- errno EHOSTDOWN (Linux only). -/
def EHOSTDOWN : Nat := 112
/-- errno EREMOTEIO (Linux only). -/
def EREMOTEIO : Nat := 121
/-- errno ENOMEDIUM (Linux only). -/
def ENOMEDIUM : Nat := 123
/-- errno ENOENT. -/
def ENOENT : Nat := 2
/-- errno EPERM. -/
def EPERM : Nat := 1

/-! ### Common error taxonomy kinds, as the numeric values of std::errc
under the system category on Linux (these are the values the source's
g_errors map in s3Helper.cc stores, and the values callers compare
against). -/

/-- std::errc::permission_denied == EACCES. -/
def errc_permission_denied : Nat := 13
/-- std::errc::invalid_argument == EINVAL. -/
def errc_invalid_argument : Nat := 22
/-- std::errc::not_supported == EOPNOTSUPP. -/
def errc_not_supported : Nat := 95
/-- std::errc::host_unreachable == EHOSTUNREACH. -/
def errc_host_unreachable : Nat := 113
/-- std::errc::network_unreachable == ENETUNREACH. -/
def errc_network_unreachable : Nat := 101
/-- std::errc::timed_out == ETIMEDOUT. -/
def errc_timed_out : Nat := 110
/-- std::errc::no_such_file_or_directory == ENOENT. -/
def errc_no_such_file_or_directory : Nat := 2
/-- std::errc::io_error == EIO. -/
def errc_io_error : Nat := 5
/-- SUCCESS_CODE: the zero error code. -/
def SUCCESS_CODE : Nat := 0

/-! ### Syscall outcomes and the retry combinator -/

/-- Outcome of one invocation of a POSIX syscall: the returned value and
the value of errno after the call (meaningful when the return value
signals failure). -/
structure SysRes where
  ret : Int
  errno : Nat
deriving Repr, DecidableEq

/-- POSIX_RETRY_ERRORS from posixHelper.cc: the set of transient errno
values that trigger a retry. -/
def POSIX_RETRY_ERRORS : List Nat :=
  [EINTR, EIO_CODE, EAGAIN, EACCES, EBUSY, EMFILE, ETXTBSY, ESPIPE, EMLINK,
   EPIPE, EDEADLK, EWOULDBLOCK, ENOLINK, EADDRINUSE, EADDRNOTAVAIL,
   ENETDOWN, ENETUNREACH, ECONNABORTED, ECONNRESET, ENOTCONN,
   EHOSTUNREACH, ECANCELED, ESTALE, ENONET, EHOSTDOWN, EREMOTEIO,
   ENOMEDIUM]

/-- POSIXRetryCondition from posixHelper.cc: returns true when the loop
must STOP (success, or errno outside the transient set); returns false
when the operation is to be retried, in which case the source increments
the comp.helpers.mod.posix.<op>.retries counter. -/
def POSIXRetryCondition (r : SysRes) : Bool :=
  decide (0 ≤ r.ret) || !(POSIX_RETRY_ERRORS.contains r.errno)

/-- The ad-hoc retry condition used only by the writev loop inside
PosixFileHandle::write: stop as soon as the result is not -1, i.e. retry
on ANY failure, with no errno classification and no retries counter. -/
def writevStopCondition (r : SysRes) : Bool :=
  r.ret != -1

/-- The inline retry conditions used for opendir and for each readdir
stream call inside PosixHelper::readdir: stop when the call returned a
non-null pointer (modelled as ret different from 0) or when errno is
outside the transient set — the same classification as
POSIXRetryCondition, but with no log line and no increment of the
retries counter. -/
def dirStopCondition (r : SysRes) : Bool :=
  r.ret != 0 || !(POSIX_RETRY_ERRORS.contains r.errno)

/-- Modelled from the spec: the retry combinator (declared in a header
that is not under src/) runs an operation with a bounded number of
attempts, re-invoking it while the classification condition returns
false, and returns the last result when the budget is exhausted.
budget is the number of re-invocations still allowed; call k is the
outcome of the (k+1)-th invocation of the syscall.  The returned Nat is
the number of retries (re-invocations) performed. -/
def retryLoop (call : Nat → SysRes) (cond : SysRes → Bool) :
    Nat → Nat → SysRes × Nat
  | 0, k => (call k, 0)
  | b + 1, k =>
    let r := call k
    if cond r then (r, 0)
    else
      let p := retryLoop call cond b (k + 1)
      (p.1, p.2 + 1)

/-! ### The user-context scope (posixHelper.cc, UserCtxSetter) -/

/-- static_cast of -1 to uid_t / gid_t (32-bit unsigned). -/
def UID_MINUS_ONE : Nat := 4294967295

/-- UserCtxSetter from posixHelper.cc: the requested uid/gid and the
uid/gid observed after the switch (as queried by setfsuid(-1) /
setfsgid(-1) in the constructor). -/
structure UserCtxSetter where
  m_uid : Nat
  m_gid : Nat
  m_currUid : Nat
  m_currGid : Nat
deriving Repr, DecidableEq

/-- UserCtxSetter::valid from posixHelper.cc: the scope is valid when
the post-switch uid and gid observably equal the requested ones (a
requested value of (uid_t)-1 means no change and is always accepted). -/
def UserCtxSetter.valid (c : UserCtxSetter) : Bool :=
  (c.m_uid == UID_MINUS_ONE || c.m_currUid == c.m_uid) &&
  (c.m_gid == UID_MINUS_ONE || c.m_currGid == c.m_gid)

/-! ### POSIX helper operations -/

/-- Observable outcome of one POSIX helper operation: the result (error
carries the errno propagated through makeFuturePosixException), the
number of backend syscall invocations performed, and the total value by
which the comp.helpers.mod.posix.<op>.retries counter was incremented. -/
structure OpOutcome (α : Type) where
  result : Except Nat α
  syscalls : Nat
  metricRetries : Nat

/-- The guard every POSIX helper operation starts with: if the
UserCtxSetter scope is not valid, fail with EDOM before any backend
syscall; otherwise run the body. -/
def userCtxWrap (ctx : UserCtxSetter) (body : OpOutcome α) : OpOutcome α :=
  if ctx.valid then body else ⟨.error EDOM, 0, 0⟩

/-- The setResult template of posixHelper.cc, shared by unlink, rmdir,
mkdir, rename, chmod, chown, truncate, access, symlink, link, close,
fsync, setxattr and removexattr: run the syscall under the retry
combinator with POSIXRetryCondition, and translate a negative result
into the final errno. -/
def setResult (budget : Nat) (call : Nat → SysRes) : OpOutcome Unit :=
  let p := retryLoop call POSIXRetryCondition budget 0
  ⟨if p.1.ret < 0 then .error p.1.errno else .ok (), p.2 + 1, p.2⟩

/-- PosixHelper::unlink from posixHelper.cc: user-context guard, then
the unlink syscall through setResult. -/
def posixUnlink (ctx : UserCtxSetter) (budget : Nat) (call : Nat → SysRes) :
    OpOutcome Unit :=
  userCtxWrap ctx (setResult budget call)

/-- PosixFileHandle::read from posixHelper.cc: user-context guard, then
pread through the retry combinator with POSIXRetryCondition; on failure
the errno is surfaced, on success the number of bytes read (the pread
result) is reported. -/
def posixRead (ctx : UserCtxSetter) (budget : Nat) (call : Nat → SysRes) :
    OpOutcome Int :=
  userCtxWrap ctx
    (let p := retryLoop call POSIXRetryCondition budget 0
     ⟨if p.1.ret = -1 then .error p.1.errno else .ok p.1.ret, p.2 + 1, p.2⟩)

/-- One chunk of the writev loop inside PosixFileHandle::write from
posixHelper.cc: the writev syscall is run through the retry combinator
with the ad-hoc condition (result != -1), so it is re-invoked on any
failing errno and never touches the retries counter; on final failure
the errno is surfaced. -/
def posixWriteChunk (ctx : UserCtxSetter) (budget : Nat)
    (call : Nat → SysRes) : OpOutcome Int :=
  userCtxWrap ctx
    (let p := retryLoop call writevStopCondition budget 0
     ⟨if p.1.ret = -1 then .error p.1.errno else .ok p.1.ret, p.2 + 1, 0⟩)

/-- PosixHelper::open from posixHelper.cc: user-context guard, then the
open syscall through the retry combinator with POSIXRetryCondition; on
success the file descriptor is returned. -/
def posixOpen (ctx : UserCtxSetter) (budget : Nat) (call : Nat → SysRes) :
    OpOutcome Int :=
  userCtxWrap ctx
    (let p := retryLoop call POSIXRetryCondition budget 0
     ⟨if p.1.ret = -1 then .error p.1.errno else .ok p.1.ret, p.2 + 1, p.2⟩)

/-! ### PosixHelper::readdir -/

/-- True for the directory entries "." and ".." that readdir skips. -/
def isDotEntry (s : String) : Bool :=
  s == "." || s == ".."

/-- The readdir loop of PosixHelper::readdir from posixHelper.cc, over
the directory stream (the successive dirent names returned by the
readdir syscall) with the two int counters offset_ and count_: each
entry is read and, while count_ > 0, a non-dot entry either consumes
one unit of offset_ or is collected and consumes one unit of count_. -/
def readdirLoop (entries : List String) (offset_ count_ : Int) :
    List String :=
  match entries with
  | [] => []
  | dp :: rest =>
    if count_ ≤ 0 then []
    else if !isDotEntry dp then
      if offset_ > 0 then readdirLoop rest (offset_ - 1) count_
      else dp :: readdirLoop rest offset_ (count_ - 1)
    else readdirLoop rest offset_ count_

/-- Two's-complement narrowing of an integer to the C int type (32-bit),
as performed by `int offset_ = offset, count_ = count;` in
PosixHelper::readdir. -/
def toInt32 (z : Int) : Int :=
  (z + 2 ^ 31) % 2 ^ 32 - 2 ^ 31

/-- PosixHelper::readdir from posixHelper.cc: user-context guard, then
the loop over the directory stream; offset has C type off_t and count
has C type size_t, both narrowed to int for the loop counters. -/
def posixReaddir (ctx : UserCtxSetter) (entries : List String)
    (offset : Int) (count : Nat) : OpOutcome (List String) :=
  userCtxWrap ctx
    ⟨.ok (readdirLoop entries (toInt32 offset) (toInt32 (Int.ofNat count))),
     entries.length + 1, 0⟩

/-! ### PosixHelper::readlink -/

/-- Buffer size used by PosixHelper::readlink (constexpr maxSize). -/
def readlinkMaxSize : Nat := 1024

/-- The readlink(2) syscall on an existing symlink, per its POSIX
semantics: it places at most bufsiz bytes of the link target in the
buffer (silently truncating a longer target, with no terminating null
byte) and returns the number of bytes placed. -/
def sysReadlink (target : List Nat) (bufsiz : Nat) : List Nat × Int :=
  (target.take bufsiz, Int.ofNat (min target.length bufsiz))

/-- PosixHelper::readlink from posixHelper.cc: user-context guard, then
readlink into a buffer of maxSize = 1024 bytes passing maxSize - 1 as
the size limit; the res bytes the syscall reported are appended to the
buffer and returned.  The symlink is assumed to exist, so the syscall
succeeds and the retry combinator returns its first outcome. -/
def posixReadlink (ctx : UserCtxSetter) (target : List Nat) :
    OpOutcome (List Nat) :=
  userCtxWrap ctx
    (let p := sysReadlink target (readlinkMaxSize - 1)
     ⟨.ok p.1, 1, 0⟩)

/-! ### PosixHelper::setxattr -/

/-- PosixHelper::setxattr from posixHelper.cc: user-context guard; if
both the create and the replace flag are set the operation fails with
EINVAL before any syscall; otherwise the flag word is computed
(XATTR_CREATE, XATTR_REPLACE or 0) and the setxattr syscall runs under
setResult. -/
def posixSetxattr (ctx : UserCtxSetter) (create : Bool) ( replaceFlag : Bool)
    (budget : Nat) (call : Nat → SysRes) : OpOutcome Unit :=
  userCtxWrap ctx
    (if create && replaceFlag then ⟨.error EINVAL, 0, 0⟩
     else setResult budget call)

/-! ### PosixFileHandle release lifecycle -/

/-- Observable per-handle state of a PosixFileHandle: the atomic
m_needsRelease flag and the number of backend close attempts made so
far. -/
structure HandleState where
  needsRelease : Bool
  closeAttempts : Nat
deriving Repr, DecidableEq

/-- State of a freshly opened handle: release pending, no close yet. -/
def freshHandle : HandleState := ⟨true, 0⟩

/-- PosixFileHandle::release from posixHelper.cc: the needs-release flag
is swapped to false; only when it was still true is the backend close
attempted.  The returned Bool reports whether a backend close was
attempted by this call (when false the call returns an already-completed
success future). -/
def releaseHandle (s : HandleState) : HandleState × Bool :=
  if s.needsRelease then (⟨false, s.closeAttempts + 1⟩, true)
  else (s, false)

/-- PosixFileHandle::~PosixFileHandle from posixHelper.cc: the same
swap of the needs-release flag; the pending close is performed exactly
when the flag was still true. -/
def destructHandle (s : HandleState) : HandleState × Bool :=
  if s.needsRelease then (⟨false, s.closeAttempts + 1⟩, true)
  else (s, false)

/-- n successive calls of release on a handle state. -/
def runReleases : Nat → HandleState → HandleState
  | 0, s => s
  | n + 1, s => runReleases n (releaseHandle s).1

/-! ### S3 helper -/

/-- The constructors of the AWS S3Errors enumeration that the source
refers to, together with representative further codes that appear in
neither the error map nor the retry set. -/
inductive S3Errors where
  | INVALID_PARAMETER_VALUE
  | MISSING_ACTION
  | SERVICE_UNAVAILABLE
  | NETWORK_CONNECTION
  | REQUEST_EXPIRED
  | ACCESS_DENIED
  | UNKNOWN
  | NO_SUCH_BUCKET
  | NO_SUCH_KEY
  | RESOURCE_NOT_FOUND
  | INTERNAL_FAILURE
  | INVALID_QUERY_PARAMETER
  | INVALID_PARAMETER_COMBINATION
  | SLOW_DOWN
  | THROTTLING
  | BUCKET_ALREADY_EXISTS
  | REQUEST_TIMEOUT
  | VALIDATION
  | SIGNATURE_DOES_NOT_MATCH
deriving Repr, DecidableEq, BEq

/-- g_errors from s3Helper.cc: the map from AWS error codes to std::errc
values, entry for entry in source order. -/
def g_errors : List (S3Errors × Nat) :=
  [(.INVALID_PARAMETER_VALUE, errc_invalid_argument),
   (.MISSING_ACTION, errc_not_supported),
   (.SERVICE_UNAVAILABLE, errc_host_unreachable),
   (.NETWORK_CONNECTION, errc_network_unreachable),
   (.REQUEST_EXPIRED, errc_timed_out),
   (.ACCESS_DENIED, errc_permission_denied),
   (.UNKNOWN, errc_no_such_file_or_directory),
   (.NO_SUCH_BUCKET, errc_no_such_file_or_directory),
   (.NO_SUCH_KEY, errc_no_such_file_or_directory),
   (.RESOURCE_NOT_FOUND, errc_no_such_file_or_directory)]

/-- getReturnCode from s3Helper.cc: a successful outcome yields the
SUCCESS_CODE; a failed outcome's error type is looked up in g_errors,
defaulting to io_error when absent. -/
def getReturnCode (success : Bool) (err : S3Errors) : Nat :=
  if success then SUCCESS_CODE
  else
    match g_errors.lookup err with
    | some e => e
    | none => errc_io_error

/-- A PutObject request as built by S3Helper::putObject: the object key,
the whole body, and the declared content length. -/
structure PutObjectRequest where
  key : String
  body : List Nat
  contentLength : Nat
deriving Repr, DecidableEq

/-- S3Helper::putObject from s3Helper.cc: asserts offset == 0 (modelled
as returning none when the assertion fires); otherwise it coalesces the
buffer and issues a single PutObject request whose body is the whole
buffer and whose content length is the buffer length, and returns that
length.  The issued request list is returned alongside the result. -/
def putObject (key : String) (buf : List Nat) (offset : Nat) :
    Option (List PutObjectRequest × Nat) :=
  if offset ≠ 0 then none
  else some ([⟨key, buf, buf.length⟩], buf.length)

/-- Modelled from the spec: MAX_DELETE_OBJECTS, declared in s3Helper.h
which is not under src/; the spec fixes the batch bound at 1000 keys. -/
def MAX_DELETE_OBJECTS : Nat := 1000

/-- The batching loop of S3Helper::deleteObjects from s3Helper.cc,
started at a given offset: while offset < keys.size(), the batch size is
min(keys.size() - offset, MAX_DELETE_OBJECTS), the batch is built from
the range [keys.begin(), keys.begin() + batchSize) — note: from the
START of the vector, not from keys.begin() + offset — and offset
advances by MAX_DELETE_OBJECTS. -/
def deleteObjectsFrom (keys : List α) (offset : Nat) : List (List α) :=
  if offset < keys.length then
    keys.take (min (keys.length - offset) MAX_DELETE_OBJECTS) ::
      deleteObjectsFrom keys (offset + MAX_DELETE_OBJECTS)
  else []
termination_by keys.length - offset
decreasing_by simp [MAX_DELETE_OBJECTS]; omega

/-- S3Helper::deleteObjects from s3Helper.cc: the sequence of key
batches for which a bulk DeleteObjects request is issued, in order. -/
def deleteObjectsBatches (keys : List α) : List (List α) :=
  deleteObjectsFrom keys 0

/-! ### CommunicationHandler -/

/-- Two's-complement wrap of an integer into the int32_t range, used to
model the increment of the int32_t message-id counter. -/
def wrap32 (z : Int) : Int :=
  (z + 2 ^ 31) % 2 ^ 32 - 2 ^ 31

/-- CommunicationHandler::getMsgId from communicationHandler.cc: the
int32_t counter is incremented (wrapping at the type bound); if the
result is zero or negative it is reset to 1; the new counter value is
returned. -/
def getMsgId (current : Int) : Int :=
  let next := wrap32 (current + 1)
  if next ≤ 0 then 1 else next

/-- Where CommunicationHandler::onMessage routes an incoming message. -/
inductive Dispatch where
  | toPushCallback
  | ignored
  | toMailbox
deriving Repr, DecidableEq

/-- Insertion into the per-id mailbox map (m_incomingMessages[id] = payload):
any previous entry for the id is overwritten. -/
def mailboxInsert (id : Int) (payload : String)
    (inbox : List (Int × String)) : List (Int × String) :=
  (id, payload) :: inbox.filter (fun p => !(p.1 == id))

/-- CommunicationHandler::onMessage from communicationHandler.cc: a
message with a negative message id is a PUSH message — it is handed to
the push callback when one is registered (and dropped otherwise) and the
mailbox is left untouched; any other message is stored in the mailbox
under its id. -/
def onMessage (pushRegistered : Bool) (messageId : Int)
    (payload : String) (inbox : List (Int × String)) :
    List (Int × String) × Dispatch :=
  if messageId < 0 then
    (inbox, if pushRegistered then .toPushCallback else .ignored)
  else
    (mailboxInsert messageId payload inbox, .toMailbox)

/-! ### Specification-side mapping for the refinement comparison -/

/-- Mapping written from the (amended) specification wording of the S3
error translation, to be compared with getReturnCode: NoSuchKey,
NoSuchBucket, ResourceNotFound and the generic Unknown code map to
NotFound; AccessDenied to PermissionDenied; ServiceUnavailable to
HostUnreachable; NetworkConnection to NetworkUnreachable; RequestExpired
to TimedOut; InvalidParameterValue to InvalidArgument; MissingAction to
NotSupported; every other code to IoError. -/
def specErrorMapping (err : S3Errors) : Nat :=
  match err with
  | .NO_SUCH_KEY => errc_no_such_file_or_directory
  | .NO_SUCH_BUCKET => errc_no_such_file_or_directory
  | .RESOURCE_NOT_FOUND => errc_no_such_file_or_directory
  | .UNKNOWN => errc_no_such_file_or_directory
  | .ACCESS_DENIED => errc_permission_denied
  | .SERVICE_UNAVAILABLE => errc_host_unreachable
  | .NETWORK_CONNECTION => errc_network_unreachable
  | .REQUEST_EXPIRED => errc_timed_out
  | .INVALID_PARAMETER_VALUE => errc_invalid_argument
  | .MISSING_ACTION => errc_not_supported
  | _ => errc_io_error

/-! ## Theorems -/

/-! ### Claim C5: release is attempted exactly once -/

/-- Auxiliary: releasing a handle whose needs-release flag is already
false changes nothing and attempts no close. -/
theorem releaseHandle_released (c : Nat) :
    releaseHandle ⟨false, c⟩ = (⟨false, c⟩, false) := rfl

/-- Auxiliary: any number of further releases after the flag is down is
a no-op. -/
theorem runReleases_released (n c : Nat) :
    runReleases n ⟨false, c⟩ = ⟨false, c⟩ := by
  induction n with
  | zero => rfl
  | succ n ih => simpa [runReleases, releaseHandle] using ih

/-- Claim C5: release is idempotent — a second release leaves the state
unchanged and attempts no backend close — and over a handle lifetime of
any number of explicit releases followed by destruction, exactly one
backend close is attempted (the destructor performs it when no explicit
release did). -/
theorem posix_release_exactly_once :
    (∀ s : HandleState,
       releaseHandle (releaseHandle s).1 = ((releaseHandle s).1, false)) ∧
    (∀ n : Nat,
       ((destructHandle (runReleases n freshHandle)).1).closeAttempts = 1) := by
  constructor
  · intro s
    by_cases h : s.needsRelease <;> simp [releaseHandle, h]
  · intro n
    cases n with
    | zero => rfl
    | succ n =>
      have h1 : runReleases (n + 1) freshHandle = ⟨false, 1⟩ := by
        simpa [runReleases, freshHandle, releaseHandle] using
          runReleases_released n 1
      rw [h1]
      rfl

/-! ### Claim C7: object-store write requires offset 0 -/

/-- Claim C7: putObject is a whole-object PUT guarded by the
offset == 0 assertion — at offset 0 it issues exactly one request whose
body is the whole buffer and returns the full buffer length, and at any
non-zero offset it is rejected (the assertion fires) with no request
issued. -/
theorem s3_putObject_whole_object (key : String) (buf : List Nat)
    (offset : Nat) :
    putObject key buf offset =
      if offset = 0 then some ([⟨key, buf, buf.length⟩], buf.length)
      else none := by
  by_cases h : offset = 0 <;> simp [putObject, h]

/-! ### Claim C9: setxattr with create and replace -/

/-- Claim C9: posixSetxattr invoked with both the create flag and the
replace flag set fails with EINVAL (the InvalidArgument code) before
invoking the platform setxattr syscall, for any valid user context. -/
theorem posix_setxattr_both_flags_einval (ctx : UserCtxSetter)
    (budget : Nat) (call : Nat → SysRes) (hv : ctx.valid = true) :
    posixSetxattr ctx true true budget call = ⟨.error EINVAL, 0, 0⟩ ∧
    EINVAL = errc_invalid_argument := by
  refine ⟨?_, rfl⟩
  simp [posixSetxattr, userCtxWrap, hv]

/-- Witness for C9 at a concrete valid context and call stream. -/
theorem posix_setxattr_both_flags_einval_witness :
    ((⟨0, 0, 0, 0⟩ : UserCtxSetter).valid = true) ∧
    (posixSetxattr ⟨0, 0, 0, 0⟩ true true 2 (fun _ => ⟨0, 0⟩) =
        ⟨.error EINVAL, 0, 0⟩ ∧
      EINVAL = errc_invalid_argument) :=
  ⟨by decide,
   posix_setxattr_both_flags_einval ⟨0, 0, 0, 0⟩ 2 (fun _ => ⟨0, 0⟩)
     (by decide)⟩

/-! ### Claim C10: readlink truncation -/

/-- Claim C10: posixReadlink passes 1023 (= 1024 - 1) bytes as the
readlink size limit; the returned target is always the first 1023 bytes
of the real target — in particular a target of at most 1023 bytes is
returned whole, and a longer one is silently truncated with no error. -/
theorem posix_readlink_truncation (ctx : UserCtxSetter) (target : List Nat)
    (hv : ctx.valid = true) :
    readlinkMaxSize - 1 = 1023 ∧
    (posixReadlink ctx target).result = .ok (target.take 1023) ∧
    (target.length ≤ 1023 → (posixReadlink ctx target).result = .ok target) := by
  refine ⟨rfl, ?_, ?_⟩
  · simp [posixReadlink, userCtxWrap, hv, sysReadlink, readlinkMaxSize]
  · intro hlen
    simp [posixReadlink, userCtxWrap, hv, sysReadlink, readlinkMaxSize,
      List.take_of_length_le hlen]

/-- Witness for C10 at a concrete valid context and a short target. -/
theorem posix_readlink_truncation_witness :
    ((⟨0, 0, 0, 0⟩ : UserCtxSetter).valid = true) ∧
    (readlinkMaxSize - 1 = 1023 ∧
      (posixReadlink ⟨0, 0, 0, 0⟩ [7, 8, 9]).result = .ok ([7, 8, 9].take 1023) ∧
      ([7, 8, 9].length ≤ 1023 →
        (posixReadlink ⟨0, 0, 0, 0⟩ [7, 8, 9]).result = .ok [7, 8, 9])) :=
  ⟨by decide, posix_readlink_truncation ⟨0, 0, 0, 0⟩ [7, 8, 9] (by decide)⟩

/-! ### Claim C1: behaviour on an invalid identity scope -/

/-- Claim C1 (counterexample): when the identity scope is invalid the
operation fails with errno EDOM (numerical argument out of domain), not
with the PermissionDenied kind of the common taxonomy — EDOM differs
from std::errc::permission_denied (EACCES) and from EPERM.  No backend
syscall is attempted. -/
theorem posix_identity_error_is_edom :
    (posixRead ⟨1000, 1000, 0, 0⟩ 3 (fun _ => ⟨0, 0⟩)).result = .error EDOM ∧
    (posixRead ⟨1000, 1000, 0, 0⟩ 3 (fun _ => ⟨0, 0⟩)).syscalls = 0 ∧
    EDOM ≠ errc_permission_denied ∧
    EDOM ≠ EPERM ∧
    EDOM ≠ EACCES :=
  ⟨rfl, rfl, by decide, by decide, by decide⟩

/-- Claim C1 (amended): for every POSIX helper operation, if the
identity scope is not valid the operation fails with errno EDOM and no
backend syscall is attempted. -/
theorem posix_invalid_ctx_edom (ctx : UserCtxSetter)
    (h : ctx.valid = false) :
    ∀ (budget : Nat) (call : Nat → SysRes) (entries : List String)
      (offset : Int) (count : Nat) (target : List Nat) (c r : Bool),
    posixRead ctx budget call = ⟨.error EDOM, 0, 0⟩ ∧
    posixWriteChunk ctx budget call = ⟨.error EDOM, 0, 0⟩ ∧
    posixOpen ctx budget call = ⟨.error EDOM, 0, 0⟩ ∧
    posixUnlink ctx budget call = ⟨.error EDOM, 0, 0⟩ ∧
    posixReaddir ctx entries offset count = ⟨.error EDOM, 0, 0⟩ ∧
    posixReadlink ctx target = ⟨.error EDOM, 0, 0⟩ ∧
    posixSetxattr ctx c r budget call = ⟨.error EDOM, 0, 0⟩ := by
  intro budget call entries offset count target c r
  refine ⟨?_, ?_, ?_, ?_, ?_, ?_, ?_⟩ <;>
    simp [posixRead, posixWriteChunk, posixOpen, posixUnlink,
      posixReaddir, posixReadlink, posixSetxattr, userCtxWrap, h]

/-- Witness for C1 at a concrete invalid context (requested uid/gid
1000 while the observed post-switch identity stayed 0). -/
theorem posix_invalid_ctx_edom_witness :
    ((⟨1000, 1000, 0, 0⟩ : UserCtxSetter).valid = false) ∧
    posixUnlink ⟨1000, 1000, 0, 0⟩ 2 (fun _ => ⟨0, 0⟩) =
      ⟨.error EDOM, 0, 0⟩ :=
  ⟨by decide,
   (posix_invalid_ctx_edom ⟨1000, 1000, 0, 0⟩ (by decide) 2 (fun _ => ⟨0, 0⟩)
      [] 0 0 [] false false).2.2.2.1⟩

/-! ### Claim C4: retry classification -/

/-- Auxiliary: the retry loop stops at once when the condition accepts
the first outcome. -/
theorem retryLoop_stop (call : Nat → SysRes) (cond : SysRes → Bool)
    (k : Nat) (h : cond (call k) = true) :
    ∀ b, retryLoop call cond b k = (call k, 0)
  | 0 => rfl
  | b + 1 => by simp [retryLoop, h]

/-- Auxiliary: when the condition rejects every outcome in the budget,
the retry loop performs every attempt and returns the last outcome,
having retried budget times. -/
theorem retryLoop_exhaust (call : Nat → SysRes) (cond : SysRes → Bool) :
    ∀ (b k : Nat), (∀ j, j ≤ b → cond (call (k + j)) = false) →
      retryLoop call cond b k = (call (k + b), b) := by
  intro b
  induction b with
  | zero =>
    intro k h
    simp [retryLoop]
  | succ b ih =>
    intro k h
    have h0 : cond (call k) = false := by simpa using h 0 (by omega)
    have hrec : retryLoop call cond b (k + 1) = (call (k + 1 + b), b) :=
      ih (k + 1) (fun j hj => by
        have := h (j + 1) (by omega)
        simpa [Nat.add_assoc, Nat.add_comm 1 j] using this)
    have harg : k + 1 + b = k + (b + 1) := by omega
    simp [retryLoop, h0, hrec, harg]

/-- Claim C4 (counterexample): the writev loop inside write uses the
condition (result != -1), so a failure with ENOENT — an errno OUTSIDE
the transient set, for which POSIXRetryCondition would stop at once —
is nevertheless retried until the budget is exhausted (4 syscalls for a
budget of 3), and the retries metric counter is never incremented. -/
theorem posix_write_retry_ignores_errno :
    posixWriteChunk ⟨0, 0, 0, 0⟩ 3 (fun _ => ⟨-1, ENOENT⟩) =
      ⟨.error ENOENT, 4, 0⟩ ∧
    POSIX_RETRY_ERRORS.contains ENOENT = false ∧
    POSIXRetryCondition ⟨-1, ENOENT⟩ = true :=
  ⟨rfl, by decide, by decide⟩

/-- Claim C4 (amended): for the POSIX helper call sites that classify
with POSIXRetryCondition (the setResult family — access, mkdir,
unlink, rmdir, symlink, rename, link, chmod, chown, truncate,
setxattr, removexattr, close, fsync — and the pread, open, getxattr,
listxattr and readlink retries), a first failure with an errno outside
the transient set surfaces immediately after a single syscall with no
retry and no counter increment; when every attempt in the bounded
budget fails with a transient errno the operation performs budget
retries, increments the retries counter once per retry, and returns
the LAST underlying errno, never success; the retries counter always
equals the number of extra syscall invocations beyond the first.  The
opendir and readdir stream calls inside readdir retry on the same
transient set — stopping at once on a non-transient failure and
returning the last failure on exhaustion — but never increment the
retries counter.  The writev calls inside write are retried on any
failure, without errno classification and without incrementing the
counter. -/
theorem posix_retry_policy (ctx : UserCtxSetter) (budget : Nat)
    (call : Nat → SysRes) (hv : ctx.valid = true) :
    ((call 0).ret = -1 → POSIX_RETRY_ERRORS.contains (call 0).errno = false →
       posixUnlink ctx budget call = ⟨.error (call 0).errno, 1, 0⟩ ∧
       posixRead ctx budget call = ⟨.error (call 0).errno, 1, 0⟩) ∧
    ((∀ j, j ≤ budget → (call j).ret = -1 ∧
         POSIX_RETRY_ERRORS.contains (call j).errno = true) →
       posixUnlink ctx budget call = ⟨.error (call budget).errno, budget + 1, budget⟩ ∧
       posixRead ctx budget call = ⟨.error (call budget).errno, budget + 1, budget⟩) ∧
    ((posixUnlink ctx budget call).metricRetries + 1 =
      (posixUnlink ctx budget call).syscalls) ∧
    ((call 0).ret = 0 → POSIX_RETRY_ERRORS.contains (call 0).errno = false →
       retryLoop call dirStopCondition budget 0 = (call 0, 0)) ∧
    ((∀ j, j ≤ budget → (call j).ret = 0 ∧
         POSIX_RETRY_ERRORS.contains (call j).errno = true) →
       retryLoop call dirStopCondition budget 0 = (call budget, budget)) ∧
    (∀ (entries : List String) (offset : Int) (count : Nat),
       (posixReaddir ctx entries offset count).metricRetries = 0) ∧
    ((∀ j, j ≤ budget → (call j).ret = -1) →
       posixWriteChunk ctx budget call =
         ⟨.error (call budget).errno, budget + 1, 0⟩) := by
  refine ⟨?_, ?_, ?_, ?_, ?_, ?_, ?_⟩
  · intro hret herr
    have hcond : POSIXRetryCondition (call 0) = true := by
      simp only [POSIXRetryCondition, herr, Bool.not_false, Bool.or_true]
    have hloop := retryLoop_stop call POSIXRetryCondition 0 hcond budget
    constructor
    · simp [posixUnlink, userCtxWrap, hv, setResult, hloop, hret]
    · simp [posixRead, userCtxWrap, hv, hloop, hret]
  · intro hall
    have hcond : ∀ j, j ≤ budget → POSIXRetryCondition (call (0 + j)) = false := by
      intro j hj
      rw [Nat.zero_add]
      have h1 := (hall j hj).1
      have h2 := (hall j hj).2
      have hdec : decide ((0 : Int) ≤ (call j).ret) = false := by
        rw [h1]; rfl
      simp only [POSIXRetryCondition, hdec, h2, Bool.not_true, Bool.or_false]
    have hloop := retryLoop_exhaust call POSIXRetryCondition budget 0 hcond
    rw [Nat.zero_add] at hloop
    have hret := (hall budget (Nat.le_refl budget)).1
    constructor
    · simp [posixUnlink, userCtxWrap, hv, setResult, hloop, hret]
    · simp [posixRead, userCtxWrap, hv, hloop, hret]
  · simp [posixUnlink, userCtxWrap, hv, setResult]
  · intro hret herr
    have hcond : dirStopCondition (call 0) = true := by
      simp only [dirStopCondition, herr, Bool.not_false, Bool.or_true]
    exact retryLoop_stop call dirStopCondition 0 hcond budget
  · intro hall
    have hcond : ∀ j, j ≤ budget → dirStopCondition (call (0 + j)) = false := by
      intro j hj
      rw [Nat.zero_add]
      have h2 := (hall j hj).2
      have hne : ((call j).ret != 0) = false := by
        rw [(hall j hj).1]; rfl
      simp only [dirStopCondition, hne, h2, Bool.not_true, Bool.or_false]
    have hloop := retryLoop_exhaust call dirStopCondition budget 0 hcond
    rw [Nat.zero_add] at hloop
    exact hloop
  · intro entries offset count
    simp [posixReaddir, userCtxWrap, hv]
  · intro hall
    have hcond : ∀ j, j ≤ budget → writevStopCondition (call (0 + j)) = false := by
      intro j hj
      rw [Nat.zero_add]
      have hne : ((call j).ret != -1) = false := by
        rw [hall j hj]; rfl
      simp only [writevStopCondition, hne]
    have hloop := retryLoop_exhaust call writevStopCondition budget 0 hcond
    rw [Nat.zero_add] at hloop
    have hret := hall budget (Nat.le_refl budget)
    simp [posixWriteChunk, userCtxWrap, hv, hloop, hret]

/-- Witness for C4 at a concrete valid context: a call stream that
always fails with transient EINTR exhausts a budget of 2 retries and
surfaces EINTR. -/
theorem posix_retry_policy_witness :
    ((⟨0, 0, 0, 0⟩ : UserCtxSetter).valid = true) ∧
    posixUnlink ⟨0, 0, 0, 0⟩ 2 (fun _ => ⟨-1, EINTR⟩) =
      ⟨.error EINTR, 3, 2⟩ :=
  ⟨by decide,
   ((posix_retry_policy ⟨0, 0, 0, 0⟩ 2 (fun _ => ⟨-1, EINTR⟩)
        (by decide)).2.1 (fun j _ => ⟨rfl, by decide⟩)).1⟩

/-! ### Claim C6: readdir honours offset and count -/

/-- Auxiliary: an integer already in the int32 range passes through
two's-complement narrowing unchanged. -/
theorem toInt32_eq_self {z : Int} (h0 : -2147483648 ≤ z)
    (h1 : z < 2147483648) : toInt32 z = z := by
  unfold toInt32
  have hp31 : (2 : Int) ^ 31 = 2147483648 := by norm_num
  have hp32 : (2 : Int) ^ 32 = 4294967296 := by norm_num
  rw [hp31, hp32]
  have h2 : (z + 2147483648) % 4294967296 = z + 2147483648 :=
    Int.emod_eq_of_lt (by omega) (by omega)
  omega

/-- Auxiliary: with non-negative counters, the readdir loop returns
exactly count non-dot entries after skipping the first offset non-dot
entries of the stream. -/
theorem readdirLoop_eq (entries : List String) :
    ∀ (m n : Nat),
      readdirLoop entries ((m : Nat) : Int) ((n : Nat) : Int) =
        ((entries.filter (fun e => !isDotEntry e)).drop m).take n := by
  induction entries with
  | nil => intro m n; simp [readdirLoop]
  | cons dp rest ih =>
    intro m n
    match n with
    | 0 => simp [readdirLoop]
    | n' + 1 =>
      have hcount : ¬ ((((n' + 1 : Nat)) : Int) ≤ 0) := by
        push_cast; omega
      have hsubn : (((n' + 1 : Nat)) : Int) - 1 = ((n' : Nat) : Int) := by
        push_cast; ring
      by_cases hdot : isDotEntry dp
      · rw [readdirLoop]
        simp only [if_neg hcount, hdot, Bool.not_true, Bool.false_eq_true,
          if_false]
        rw [ih m (n' + 1)]
        simp [hdot]
      · match m with
        | 0 =>
          rw [readdirLoop]
          simp only [if_neg hcount, hdot, Bool.not_false, if_true]
          have hoff : ¬ (((0 : Nat) : Int) > 0) := by norm_num
          rw [if_neg hoff, hsubn, ih 0 n']
          simp [hdot]
        | m' + 1 =>
          rw [readdirLoop]
          simp only [if_neg hcount, hdot, Bool.not_false, if_true]
          have hoff : (((m' + 1 : Nat)) : Int) > 0 := by push_cast; omega
          have hsubm : (((m' + 1 : Nat)) : Int) - 1 = ((m' : Nat) : Int) := by
            push_cast; ring
          rw [if_pos hoff, hsubm, ih m' (n' + 1)]
          simp [hdot]

/-- Claim C6 (counterexample): the source narrows both counters to C
int (int offset_ = offset, count_ = count), so count = 2^31 wraps to
INT_MIN and readdir returns the empty list on the non-empty stream
["a"], although the claim demands the first min(count, 1) = 1 entries,
i.e. ["a"]. -/
theorem posix_readdir_narrowing_truncates :
    (posixReaddir ⟨0, 0, 0, 0⟩ ["a"] 0 2147483648).result = .ok [] ∧
    ((["a"].filter (fun e => !isDotEntry e)).drop 0).take 2147483648 = ["a"] ∧
    ([] : List String) ≠ ["a"] := by
  refine ⟨rfl, ?_, by decide⟩
  have hfil : ["a"].filter (fun e => !isDotEntry e) = ["a"] := rfl
  rw [hfil, List.drop_zero]
  exact List.take_of_length_le (by norm_num)

/-- Claim C6 (amended): for a valid identity scope, every offset with
0 ≤ offset < 2^31 and every count < 2^31 (the ranges preserved by the
source's narrowing of both counters to C int), readdir returns exactly
the window of count non-dot entries after the first offset non-dot
entries of the directory stream, in listing order; the result never
contains "." or ".." and has at most count entries. -/
theorem posix_readdir_spec (ctx : UserCtxSetter) (entries : List String)
    (offset : Int) (count : Nat) (hv : ctx.valid = true)
    (h0 : 0 ≤ offset) (h1 : offset < 2147483648)
    (h2 : count < 2147483648) :
    (posixReaddir ctx entries offset count).result =
      .ok (((entries.filter (fun e => !isDotEntry e)).drop offset.toNat).take count) ∧
    "." ∉ ((entries.filter (fun e => !isDotEntry e)).drop offset.toNat).take count ∧
    ".." ∉ ((entries.filter (fun e => !isDotEntry e)).drop offset.toNat).take count ∧
    (((entries.filter (fun e => !isDotEntry e)).drop offset.toNat).take count).length ≤ count := by
  have hmemfilter :
      ∀ x ∈ ((entries.filter (fun e => !isDotEntry e)).drop offset.toNat).take count,
        x ∈ entries.filter (fun e => !isDotEntry e) := by
    intro x hx
    exact List.drop_subset _ _ (List.take_subset _ _ hx)
  refine ⟨?_, ?_, ?_, List.length_take_le _ _⟩
  · have hoc : toInt32 offset = ((offset.toNat : Nat) : Int) := by
      rw [toInt32_eq_self (by omega) h1, Int.toNat_of_nonneg h0]
    have hcc : toInt32 ((count : Nat) : Int) = ((count : Nat) : Int) := by
      refine toInt32_eq_self (by omega) ?_
      exact_mod_cast h2
    simp only [posixReaddir, userCtxWrap, hv, if_true]
    rw [show (Int.ofNat count) = ((count : Nat) : Int) from rfl, hcc, hoc,
      readdirLoop_eq]
  · intro hmem
    have := hmemfilter _ hmem
    simp [List.mem_filter, isDotEntry] at this
  · intro hmem
    have := hmemfilter _ hmem
    simp [List.mem_filter, isDotEntry] at this

/-- Witness for C6 on a concrete directory stream with dot entries,
offset 1 and count 2. -/
theorem posix_readdir_spec_witness :
    (((⟨0, 0, 0, 0⟩ : UserCtxSetter).valid = true) ∧ (0 : Int) ≤ 1 ∧
      (1 : Int) < 2147483648 ∧ 2 < 2147483648) ∧
    ((posixReaddir ⟨0, 0, 0, 0⟩ [".", "..", "a", "b", "c"] 1 2).result =
      .ok ((([".", "..", "a", "b", "c"].filter
          (fun e => !isDotEntry e)).drop (1 : Int).toNat).take 2) ∧
      "." ∉ (([".", "..", "a", "b", "c"].filter
          (fun e => !isDotEntry e)).drop (1 : Int).toNat).take 2 ∧
      ".." ∉ (([".", "..", "a", "b", "c"].filter
          (fun e => !isDotEntry e)).drop (1 : Int).toNat).take 2 ∧
      ((([".", "..", "a", "b", "c"].filter
          (fun e => !isDotEntry e)).drop (1 : Int).toNat).take 2).length ≤ 2) :=
  ⟨⟨by decide, by decide, by decide, by decide⟩,
   posix_readdir_spec ⟨0, 0, 0, 0⟩ [".", "..", "a", "b", "c"] 1 2
     (by decide) (by decide) (by decide) (by decide)⟩

/-! ### Claim C2: deleteObjects batching -/

/-- Auxiliary: for between 1001 and 2000 keys the loop runs twice, and
BOTH iterations build their batch from the start of the key vector —
the first of size 1000, the second of size keys.length - 1000 — because
the source takes the range [keys.begin(), keys.begin() + batchSize)
without adding the offset. -/
theorem deleteObjectsBatches_two_rounds (keys : List Nat)
    (h1 : 1000 < keys.length) (h2 : keys.length ≤ 2000) :
    deleteObjectsBatches keys =
      [keys.take 1000, keys.take (keys.length - 1000)] := by
  unfold deleteObjectsBatches
  rw [deleteObjectsFrom, if_pos (by omega)]
  rw [deleteObjectsFrom, if_pos (by simpa [MAX_DELETE_OBJECTS] using h1)]
  rw [deleteObjectsFrom, if_neg (by simp [MAX_DELETE_OBJECTS]; omega)]
  simp only [MAX_DELETE_OBJECTS, Nat.sub_zero]
  rw [Nat.min_eq_right (by omega), Nat.min_eq_left (by omega)]

/-- Claim C2: evaluating the batching loop on the 1001 keys 0..1000
shows the divergence — the second issued batch is [0] (the first key
again), not [1000]: key 1000 appears in no issued batch while key 0
appears in both. -/
theorem s3_deleteObjects_repeats_head_batch :
    deleteObjectsBatches (List.range 1001) =
      [List.range 1000, [0]] ∧
    1000 ∉ (deleteObjectsBatches (List.range 1001)).flatten ∧
    1000 ∈ List.range 1001 ∧
    [0] ≠ [1000] := by
  have h := deleteObjectsBatches_two_rounds (List.range 1001)
    (by simp) (by simp)
  have htake : (List.range 1001).take 1000 = List.range 1000 := by
    rw [List.take_range]
    norm_num
  have hone : (List.range 1001).take 1 = [0] := by
    rw [List.take_range]
    norm_num
    rfl
  have hmain : deleteObjectsBatches (List.range 1001) =
      [List.range 1000, [0]] := by
    rw [h, htake]
    simp only [List.length_range]
    rw [show (1001 - 1000 : Nat) = 1 from rfl, hone]
  refine ⟨hmain, ?_, by simp, by simp⟩
  rw [hmain]
  simp [List.mem_range]

/-! ### Claim C3: the S3 error mapping -/

/-- Claim C3 (counterexample): InvalidParameterCombination — an
InvalidParameter* code — is NOT in g_errors and therefore surfaces as
io_error, not invalid_argument; conversely Unknown and MissingAction
ARE in g_errors and surface as no_such_file_or_directory and
not_supported respectively, not as io_error. -/
theorem s3_error_mapping_exceptions :
    getReturnCode false .INVALID_PARAMETER_COMBINATION = errc_io_error ∧
    errc_io_error ≠ errc_invalid_argument ∧
    getReturnCode false .INVALID_QUERY_PARAMETER = errc_io_error ∧
    getReturnCode false .UNKNOWN = errc_no_such_file_or_directory ∧
    getReturnCode false .MISSING_ACTION = errc_not_supported ∧
    errc_no_such_file_or_directory ≠ errc_io_error ∧
    errc_not_supported ≠ errc_io_error := by
  decide

/-- Claim C3 (amended): for every failed outcome the translated code is
exactly the specification mapping with three corrections — only
InvalidParameterValue (not every InvalidParameter* code) maps to
InvalidArgument, Unknown additionally maps to NotFound, MissingAction
additionally maps to NotSupported — and every other code surfaces as
IoError; a successful outcome yields the zero SUCCESS_CODE. -/
theorem s3_getReturnCode_spec :
    ∀ e : S3Errors,
      getReturnCode false e = specErrorMapping e ∧
      getReturnCode true e = SUCCESS_CODE := by
  intro e
  cases e <;> exact ⟨rfl, rfl⟩

/-! ### Claim C8: message ids and push routing -/

/-- Claim C8: every id the generator returns is strictly positive (zero
and negative values are skipped, also after int32 wrap-around), and an
incoming message with a negative id is dispatched to the registered
push callback with the per-id mailbox left untouched. -/
theorem comm_msgid_positive_push_routing :
    (∀ current : Int, 0 < getMsgId current) ∧
    (∀ (id : Int) (payload : String) (inbox : List (Int × String)),
       id < 0 →
         onMessage true id payload inbox = (inbox, .toPushCallback)) := by
  constructor
  · intro current
    unfold getMsgId
    by_cases h : wrap32 (current + 1) ≤ 0
    · simp [h]
    · simp only [h, if_false]
      omega
  · intro id payload inbox hneg
    simp [onMessage, hneg]

/-- Witness for C8: the id generated after the INT32_MAX counter value
wraps around and is reset to 1 (positive), and a concrete negative-id
message is routed to the push callback leaving the mailbox unchanged. -/
theorem comm_msgid_positive_push_routing_witness :
    0 < getMsgId 2147483647 ∧
    ((-5 : Int) < 0 ∧
      onMessage true (-5) "payload" [(3, "earlier")] =
        ([(3, "earlier")], .toPushCallback)) :=
  ⟨comm_msgid_positive_push_routing.1 2147483647,
   by decide,
   comm_msgid_positive_push_routing.2 (-5) "payload" [(3, "earlier")]
     (by decide)⟩
